import Mathlib

/-
Verification development for the Ergonomic Configuration Assistant
(`CaseStudy#1/ergo-assistant.py`).

The core of the program is a rule engine: `evaluate` derives pain flags
from the free-text discomfort description, accumulates risk points
through independent rule blocks, classifies a risk level from the point
total, and assembles a deduplicated, insertion-ordered recommendation
list.  The Python code mutates a single `UserProfile` dataclass in
place; here that mutation is embedded as explicit state passing: every
statement block of `evaluate` becomes a function `UserProfile →
UserProfile`, and `evaluate` is their composition in source order.
-/

namespace Ergo

/-- The `UserProfile` dataclass (source lines 7-26): eight raw input
fields followed by the derived fields with their Python default values
(`risk_points = 0`, `risk_level = "none"`, empty recommendation list,
all pain flags `False`). -/
structure UserProfile where
  hand_size : String
  grip_style : String
  session_duration : Int
  discomfort_level : String
  keyboard_layout : String
  mouse_weight : Option Int
  space_issue : String
  game_type : String
  risk_points : Int := 0
  risk_level : String := "none"
  recommendations : List String := []
  has_wrist_pain : Bool := false
  has_finger_pain : Bool := false
  has_forearm_pain : Bool := false
deriving Repr, DecidableEq

/-- Predicate `leadMatch n h` holds when the character list `n` matches the
leading characters of `h` (used to embed Python's substring test). -/
def leadMatch : List Char → List Char → Bool
  | [], _ => true
  | _ :: _, [] => false
  | a :: as, b :: bs => a == b && leadMatch as bs

/-- Predicate `hasSub n h` holds when `n` occurs contiguously somewhere in `h`. -/
def hasSub (needle : List Char) : List Char → Bool
  | [] => leadMatch needle []
  | c :: rest => leadMatch needle (c :: rest) || hasSub needle rest

/-- Embedding of Python's `needle in hay` substring test; the haystack
is kept as a character list. -/
def pyIn (needle : String) (hay : List Char) : Bool := hasSub needle.data hay

/-- Embedding of Python's `str.lower()`: lower-case character by
character (all the keywords searched for are ASCII). -/
def pyLower (s : String) : List Char := s.data.map Char.toLower

/- The recommendation strings of the source, verbatim (including the
trailing space in the first wrist message and the stray "ESDf"). -/

def msgLongSession : String :=
  "Long sessions detected: add structured 5-10 minute breaks every 45-60 minutes."

def msgBreaks : String :=
  "Consider adding regular breaks to your gaming sessions."

def msgWrist1 : String :=
  "Wrist discomfort: consider a lighter mouse, neutral wrist position (avoid excessive extension), and wrist support. "

def msgWrist2 : String :=
  "Try slight keyboard angle adjustment to keep wrists straight."

def msgFinger1 : String :=
  "Finger discomfort: consider a mouse with a more ergonomic shape that supports your hand size better."

def msgFinger2 : String :=
  "Finger discomfort: consider lighter actuation force for keys and mouse buttons."

def msgForearm : String :=
  "Forearm discomfort: ensure your chair and desk height allow for a 90-degree angle at the elbow."

def msgSmallFingertip : String :=
  "Small hand + fingertip grip: consider a smaller, lighter mouse (40-70g) with a shape that allows for easy fingertip control."

def msgMediumFingertip : String :=
  "Medium hand + fingertip grip: consider a lighter medium-sized mouse (50-80g) with a shape that allows for easy fingertip control."

def msgLargeFingertip : String :=
  "Large hand + fingertip grip: consider a medium-sized mouse (60-90g) with a shape that allows for easy fingertip control."

def msgSmallClaw : String :=
  "Small hand + claw grip: consider a smaller mouse (40-70g) with a shape that supports the arch of your hand and allows for easy claw grip."

def msgMediumClaw : String :=
  "Medium hand + claw grip: consider a medium-sized mouse (50-80g) with a shape that supports the arch of your hand and allows for easy claw grip."

def msgLargeClaw : String :=
  "Large hand + claw grip: consider a medium to larger mouse (60-100g) with a shape that supports the arch of your hand and allows for easy claw grip."

def msgSmallPalm : String :=
  "Small hand + palm grip: consider a smaller mouse (40-70g) with a shape that allows your palm to rest comfortably on the rear of the mouse."

def msgMediumPalm : String :=
  "Medium hand + palm grip: consider a medium-sized mouse (50-80g) with a shape that allows your palm to rest comfortably on the rear of the mouse."

def msgLargePalm : String :=
  "Large hand + palm grip: consider a medium to larger mouse (60-100g) with a shape that allows your palm to rest comfortably on the rear of the mouse."

def msgHeavy : String :=
  "Heavy mouse detected: consider switching to a lighter mouse (50-80g) to reduce strain."

def msgLighter : String :=
  "Consider switching to a lighter mouse (50-70g) to reduce strain."

def msgGoodWeight : String :=
  "Your mouse weight is within a good range for ergonomic gaming."

def msgUnknownWeight : String :=
  "Mouse weight unknown: if you experience discomfort, consider checking your mouse weight."

def msgEsdf : String :=
  "Large hands: consider trying ESDf for more key reach and centralized hand position."

def msgWasd : String :=
  "Small hands: consider trying WASD for more compact key reach and centralized hand position."

def msgSpace : String :=
  "Space constraints: consider a compact keyboard layout (e.g. 60% or 65%) and a larger mousepad to allow for better mouse positioning and reduce shoulder strain."

def msgFps : String :=
  "FPS focus: prioritize consistent sensitivity and a comfortable mouse grip to reduce micro-adjustment strain."

def msgMoba : String :=
  "MOBA focus: consider a mouse with good button placement for quick access to abilities and macros."

def msgRpg : String :=
  "RPG focus: consider a mouse with good comfort for longer sessions and customizable buttons for inventory management."

def msgMmorpg : String :=
  "MMORPG focus: consider a mouse with good comfort for longer sessions and customizable buttons for inventory management and macros."

def msgOther : String :=
  "General gaming: focus on overall comfort, proper breaks, and ergonomic posture to reduce strain across various game types."

/-- Function `parse_discomfort` (source lines 66-75): lower-case the discomfort
text, set the three pain flags by substring containment, and force all
three to `false` when the text contains "none". -/
def parse_discomfort (p : UserProfile) : UserProfile :=
  let text := pyLower p.discomfort_level
  let p := { p with
    has_wrist_pain := pyIn "wrist" text
    has_finger_pain := pyIn "finger" text || pyIn "fingers" text
    has_forearm_pain := pyIn "forearm" text }
  if pyIn "none" text then
    { p with has_wrist_pain := false, has_finger_pain := false, has_forearm_pain := false }
  else p

/-- The list-level effect of `add_recommendation`: append `m` unless it
is already present (exact string equality). -/
def addRec (r : List String) (m : String) : List String :=
  if m ∈ r then r else r ++ [m]

/-- Function `add_recommendation` (source lines 77-80). -/
def add_recommendation (p : UserProfile) (msg : String) : UserProfile :=
  { p with recommendations := addRec p.recommendations msg }

/-- Session-length block of `evaluate` (source lines 86-92). -/
def sessionRule (p : UserProfile) : UserProfile :=
  if p.session_duration ≥ 180 then
    add_recommendation { p with risk_points := p.risk_points + 2 } msgLongSession
  else if p.session_duration ≥ 90 then
    add_recommendation { p with risk_points := p.risk_points + 1 } msgBreaks
  else p

/-- Discomfort block of `evaluate` (source lines 94-105): three
independent `if`s on the pain flags. -/
def painRule (p : UserProfile) : UserProfile :=
  let p :=
    if p.has_wrist_pain then
      add_recommendation
        (add_recommendation { p with risk_points := p.risk_points + 2 } msgWrist1) msgWrist2
    else p
  let p :=
    if p.has_finger_pain then
      add_recommendation
        (add_recommendation { p with risk_points := p.risk_points + 1 } msgFinger1) msgFinger2
    else p
  if p.has_forearm_pain then
    add_recommendation { p with risk_points := p.risk_points + 1 } msgForearm
  else p

/-- Hand size × grip style block of `evaluate` (source lines 107-125):
a nine-way `elif` chain, advisory only (no points). -/
def handGripRule (p : UserProfile) : UserProfile :=
  if p.hand_size = "small" ∧ p.grip_style = "fingertip" then
    add_recommendation p msgSmallFingertip
  else if p.hand_size = "medium" ∧ p.grip_style = "fingertip" then
    add_recommendation p msgMediumFingertip
  else if p.hand_size = "large" ∧ p.grip_style = "fingertip" then
    add_recommendation p msgLargeFingertip
  else if p.hand_size = "small" ∧ p.grip_style = "claw" then
    add_recommendation p msgSmallClaw
  else if p.hand_size = "medium" ∧ p.grip_style = "claw" then
    add_recommendation p msgMediumClaw
  else if p.hand_size = "large" ∧ p.grip_style = "claw" then
    add_recommendation p msgLargeClaw
  else if p.hand_size = "small" ∧ p.grip_style = "palm" then
    add_recommendation p msgSmallPalm
  else if p.hand_size = "medium" ∧ p.grip_style = "palm" then
    add_recommendation p msgMediumPalm
  else if p.hand_size = "large" ∧ p.grip_style = "palm" then
    add_recommendation p msgLargePalm
  else p

/-- Mouse weight block of `evaluate` (source lines 127-138). -/
def weightRule (p : UserProfile) : UserProfile :=
  match p.mouse_weight with
  | some w =>
    if w > 95 then
      add_recommendation { p with risk_points := p.risk_points + 1 } msgHeavy
    else if w > 70 then
      add_recommendation { p with risk_points := p.risk_points + 1 } msgLighter
    else if w ≤ 60 then
      add_recommendation p msgGoodWeight
    else p
  | none => add_recommendation p msgUnknownWeight

/-- Keyboard layout × hand size block of `evaluate` (source lines
141-144). -/
def keyboardRule (p : UserProfile) : UserProfile :=
  if p.keyboard_layout = "wasd" ∧ p.hand_size = "large" then
    add_recommendation p msgEsdf
  else if p.keyboard_layout = "esdf" ∧ p.hand_size = "small" then
    add_recommendation p msgWasd
  else p

/-- Space constraint block of `evaluate` (source lines 145-146). -/
def spaceRule (p : UserProfile) : UserProfile :=
  if p.space_issue = "yes" then add_recommendation p msgSpace else p

/-- Game type block of `evaluate` (source lines 148-158). -/
def gameRule (p : UserProfile) : UserProfile :=
  if p.game_type = "fps" then add_recommendation p msgFps
  else if p.game_type = "moba" then add_recommendation p msgMoba
  else if p.game_type = "rpg" then add_recommendation p msgRpg
  else if p.game_type = "mmorpg" then add_recommendation p msgMmorpg
  else if p.game_type = "other" then add_recommendation p msgOther
  else p

/-- Final risk level assessment of `evaluate` (source lines 160-168). -/
def classifyRule (p : UserProfile) : UserProfile :=
  if p.risk_points ≥ 5 then { p with risk_level := "high" }
  else if p.risk_points ≥ 3 then { p with risk_level := "moderate" }
  else if p.risk_points ≥ 1 then { p with risk_level := "mild" }
  else { p with risk_level := "none" }

/-- Function `evaluate` (source lines 82-168): `parse_discomfort` first, then the
rule blocks in source order, ending with the risk level assessment.
The Python function mutates `profile` in place; here the final state is
returned. -/
def evaluate (p : UserProfile) : UserProfile :=
  classifyRule (gameRule (spaceRule (keyboardRule (weightRule
    (handGripRule (painRule (sessionRule (parse_discomfort p))))))))

/-! ### Value-level descriptions of the rule blocks

Each rule block of `evaluate` touches only `risk_points` and
`recommendations` (and `parse_discomfort` only the pain flags).  The
functions below give, per block, the point contribution and the list of
candidate messages as functions of the raw field values; the canonical
form lemmas that follow prove each block equal to this description. -/

/-- Fold `addRec` over a list of candidate messages. -/
def addAll (msgs : List String) (r : List String) : List String :=
  msgs.foldl addRec r

/-- Wrist flag as a function of the discomfort text. -/
def wristF (s : String) : Bool :=
  pyIn "wrist" (pyLower s) && !(pyIn "none" (pyLower s))

/-- Finger flag as a function of the discomfort text. -/
def fingerF (s : String) : Bool :=
  (pyIn "finger" (pyLower s) || pyIn "fingers" (pyLower s)) && !(pyIn "none" (pyLower s))

/-- Forearm flag as a function of the discomfort text. -/
def forearmF (s : String) : Bool :=
  pyIn "forearm" (pyLower s) && !(pyIn "none" (pyLower s))

def sessionPts (d : Int) : Int :=
  if d ≥ 180 then 2 else if d ≥ 90 then 1 else 0

def sessionMsgs (d : Int) : List String :=
  if d ≥ 180 then [msgLongSession] else if d ≥ 90 then [msgBreaks] else []

def painPts (w f a : Bool) : Int :=
  (if w then 2 else 0) + (if f then 1 else 0) + (if a then 1 else 0)

def painMsgs (w f a : Bool) : List String :=
  (if w then [msgWrist1, msgWrist2] else []) ++
  (if f then [msgFinger1, msgFinger2] else []) ++
  (if a then [msgForearm] else [])

def handGripMsgs (h g : String) : List String :=
  if h = "small" ∧ g = "fingertip" then [msgSmallFingertip]
  else if h = "medium" ∧ g = "fingertip" then [msgMediumFingertip]
  else if h = "large" ∧ g = "fingertip" then [msgLargeFingertip]
  else if h = "small" ∧ g = "claw" then [msgSmallClaw]
  else if h = "medium" ∧ g = "claw" then [msgMediumClaw]
  else if h = "large" ∧ g = "claw" then [msgLargeClaw]
  else if h = "small" ∧ g = "palm" then [msgSmallPalm]
  else if h = "medium" ∧ g = "palm" then [msgMediumPalm]
  else if h = "large" ∧ g = "palm" then [msgLargePalm]
  else []

def weightPts (mw : Option Int) : Int :=
  match mw with
  | some w => if w > 95 then 1 else if w > 70 then 1 else 0
  | none => 0

def weightMsgs (mw : Option Int) : List String :=
  match mw with
  | some w =>
    if w > 95 then [msgHeavy]
    else if w > 70 then [msgLighter]
    else if w ≤ 60 then [msgGoodWeight]
    else []
  | none => [msgUnknownWeight]

def keyboardMsgs (k h : String) : List String :=
  if k = "wasd" ∧ h = "large" then [msgEsdf]
  else if k = "esdf" ∧ h = "small" then [msgWasd]
  else []

def spaceMsgs (s : String) : List String :=
  if s = "yes" then [msgSpace] else []

def gameMsgs (g : String) : List String :=
  if g = "fps" then [msgFps]
  else if g = "moba" then [msgMoba]
  else if g = "rpg" then [msgRpg]
  else if g = "mmorpg" then [msgMmorpg]
  else if g = "other" then [msgOther]
  else []

/-- The risk-level thresholds (source lines 160-168) as a function of
the point total: inclusive lower bounds, highest first. -/
def classify (n : Int) : String :=
  if n ≥ 5 then "high" else if n ≥ 3 then "moderate" else if n ≥ 1 then "mild" else "none"

/-- Total point contribution of one evaluation pass. -/
def totalPts (p : UserProfile) : Int :=
  sessionPts p.session_duration +
  painPts (wristF p.discomfort_level) (fingerF p.discomfort_level) (forearmF p.discomfort_level) +
  weightPts p.mouse_weight

/-- All candidate messages of one evaluation pass, in rule order. -/
def allMsgs (p : UserProfile) : List String :=
  sessionMsgs p.session_duration ++
  painMsgs (wristF p.discomfort_level) (fingerF p.discomfort_level) (forearmF p.discomfort_level) ++
  handGripMsgs p.hand_size p.grip_style ++
  weightMsgs p.mouse_weight ++
  keyboardMsgs p.keyboard_layout p.hand_size ++
  spaceMsgs p.space_issue ++
  gameMsgs p.game_type

/-! ### Canonical forms of the rule blocks -/

theorem parse_eq (p : UserProfile) :
    parse_discomfort p = { p with
      has_wrist_pain := wristF p.discomfort_level
      has_finger_pain := fingerF p.discomfort_level
      has_forearm_pain := forearmF p.discomfort_level } := by
  unfold parse_discomfort wristF fingerF forearmF
  cases h : pyIn "none" (pyLower p.discomfort_level) <;> simp [h]

theorem sessionRule_eq (p : UserProfile) :
    sessionRule p = { p with
      risk_points := p.risk_points + sessionPts p.session_duration
      recommendations := addAll (sessionMsgs p.session_duration) p.recommendations } := by
  unfold sessionRule sessionPts sessionMsgs
  split_ifs <;> simp [add_recommendation, addAll]

theorem painRule_eq (p : UserProfile) :
    painRule p = { p with
      risk_points :=
        p.risk_points + painPts p.has_wrist_pain p.has_finger_pain p.has_forearm_pain
      recommendations :=
        addAll (painMsgs p.has_wrist_pain p.has_finger_pain p.has_forearm_pain)
          p.recommendations } := by
  obtain ⟨hs, gs, sd, dl, kl, mw, si, gt, rp, rl, recs, w, f, a⟩ := p
  unfold painRule painPts painMsgs
  cases w <;> cases f <;> cases a <;>
    simp [add_recommendation, addAll, List.foldl_append, UserProfile.mk.injEq] <;>
    omega

theorem handGripRule_eq (p : UserProfile) :
    handGripRule p = { p with
      recommendations :=
        addAll (handGripMsgs p.hand_size p.grip_style) p.recommendations } := by
  unfold handGripRule handGripMsgs
  split_ifs <;> simp [add_recommendation, addAll]

theorem weightRule_eq (p : UserProfile) :
    weightRule p = { p with
      risk_points := p.risk_points + weightPts p.mouse_weight
      recommendations := addAll (weightMsgs p.mouse_weight) p.recommendations } := by
  obtain ⟨hs, gs, sd, dl, kl, mw, si, gt, rp, rl, recs, w, f, a⟩ := p
  rcases mw with _ | wt
  · simp [weightRule, weightPts, weightMsgs, add_recommendation, addAll]
  · simp only [weightRule, weightPts, weightMsgs]
    split_ifs <;> simp [add_recommendation, addAll, UserProfile.mk.injEq]

theorem keyboardRule_eq (p : UserProfile) :
    keyboardRule p = { p with
      recommendations :=
        addAll (keyboardMsgs p.keyboard_layout p.hand_size) p.recommendations } := by
  unfold keyboardRule keyboardMsgs
  split_ifs <;> simp [add_recommendation, addAll]

theorem spaceRule_eq (p : UserProfile) :
    spaceRule p = { p with
      recommendations := addAll (spaceMsgs p.space_issue) p.recommendations } := by
  unfold spaceRule spaceMsgs
  split_ifs <;> simp [add_recommendation, addAll]

theorem gameRule_eq (p : UserProfile) :
    gameRule p = { p with
      recommendations := addAll (gameMsgs p.game_type) p.recommendations } := by
  unfold gameRule gameMsgs
  split_ifs <;> simp [add_recommendation, addAll]

theorem classifyRule_eq (p : UserProfile) :
    classifyRule p = { p with risk_level := classify p.risk_points } := by
  unfold classifyRule classify
  split_ifs <;> rfl

theorem addAll_append (L₁ L₂ r : List String) :
    addAll (L₁ ++ L₂) r = addAll L₂ (addAll L₁ r) := by
  simp [addAll, List.foldl_append]

/-- Master decomposition: one pass of `evaluate` sets the pain flags
from the discomfort text, adds `totalPts`, deduplicating-appends
`allMsgs`, and classifies the resulting point total. -/
theorem evaluate_eq (p : UserProfile) :
    evaluate p = { p with
      has_wrist_pain := wristF p.discomfort_level
      has_finger_pain := fingerF p.discomfort_level
      has_forearm_pain := forearmF p.discomfort_level
      risk_points := p.risk_points + totalPts p
      risk_level := classify (p.risk_points + totalPts p)
      recommendations := addAll (allMsgs p) p.recommendations } := by
  unfold evaluate totalPts allMsgs
  rw [parse_eq, sessionRule_eq, painRule_eq, handGripRule_eq, weightRule_eq,
    keyboardRule_eq, spaceRule_eq, gameRule_eq, classifyRule_eq]
  simp [addAll_append, UserProfile.mk.injEq, add_assoc]

/-! ### Properties of the recommendation accumulator -/

theorem addRec_of_mem {r : List String} {m : String} (h : m ∈ r) : addRec r m = r := by
  simp [addRec, h]

theorem mem_addRec_self (r : List String) (m : String) : m ∈ addRec r m := by
  unfold addRec
  split_ifs with h
  · exact h
  · simp

theorem mem_addRec_of_mem {a : String} {r : List String} (h : a ∈ r) (m : String) :
    a ∈ addRec r m := by
  unfold addRec
  split_ifs
  · exact h
  · simp [h]

theorem mem_addAll_of_mem :
    ∀ (L : List String) {r : List String} {a : String}, a ∈ r → a ∈ addAll L r
  | [], _, _, h => h
  | m :: L, _, _, h => mem_addAll_of_mem L (mem_addRec_of_mem h m)

theorem mem_addAll_of_mem_list :
    ∀ (L : List String) (r : List String) {a : String}, a ∈ L → a ∈ addAll L r
  | [], _, _, h => absurd h (List.not_mem_nil _)
  | m :: L, r, a, h => by
    rcases List.mem_cons.mp h with h | h
    · subst h
      exact mem_addAll_of_mem L (mem_addRec_self r a)
    · exact mem_addAll_of_mem_list L (addRec r m) h

theorem addAll_of_forall_mem :
    ∀ (L : List String) {r : List String}, (∀ a ∈ L, a ∈ r) → addAll L r = r
  | [], _, _ => rfl
  | m :: L, r, h => by
    have hm : addRec r m = r := addRec_of_mem (h m (List.mem_cons_self m L))
    show addAll L (addRec r m) = r
    rw [hm]
    exact addAll_of_forall_mem L fun a ha => h a (List.mem_cons_of_mem m ha)

/-- Adding the same batch of messages a second time changes nothing. -/
theorem addAll_idem (L r : List String) : addAll L (addAll L r) = addAll L r :=
  addAll_of_forall_mem L fun _ ha => mem_addAll_of_mem_list L r ha

theorem addRec_nodup {r : List String} (h : r.Nodup) (m : String) : (addRec r m).Nodup := by
  unfold addRec
  split_ifs with hm
  · exact h
  · simp [List.nodup_append, h, hm]

theorem addAll_nodup :
    ∀ (L : List String) {r : List String}, r.Nodup → (addAll L r).Nodup
  | [], _, h => h
  | m :: L, _, h => addAll_nodup L (addRec_nodup h m)

theorem addRec_extends (r : List String) (m : String) : ∃ t, addRec r m = r ++ t := by
  unfold addRec
  split_ifs
  · exact ⟨[], by simp⟩
  · exact ⟨[m], rfl⟩

/-- Fold `addAll` only ever appends: the original list survives in place. -/
theorem addAll_extends : ∀ (L : List String) (r : List String), ∃ t, addAll L r = r ++ t
  | [], r => ⟨[], by simp [addAll]⟩
  | m :: L, r => by
    obtain ⟨t₀, h₀⟩ := addRec_extends r m
    obtain ⟨t₁, h₁⟩ := addAll_extends L (addRec r m)
    refine ⟨t₀ ++ t₁, ?_⟩
    show addAll L (addRec r m) = _
    rw [h₁, h₀, List.append_assoc]

theorem totalPts_evaluate (p : UserProfile) : totalPts (evaluate p) = totalPts p := by
  rw [evaluate_eq]
  rfl

theorem allMsgs_evaluate (p : UserProfile) : allMsgs (evaluate p) = allMsgs p := by
  rw [evaluate_eq]
  rfl

theorem evaluate_recs (p : UserProfile) :
    (evaluate p).recommendations = addAll (allMsgs p) p.recommendations := by
  rw [evaluate_eq]

theorem evaluate_points (p : UserProfile) :
    (evaluate p).risk_points = p.risk_points + totalPts p := by
  rw [evaluate_eq]

theorem evaluate_wrist (p : UserProfile) :
    (evaluate p).has_wrist_pain = wristF p.discomfort_level := by
  rw [evaluate_eq]

theorem evaluate_finger (p : UserProfile) :
    (evaluate p).has_finger_pain = fingerF p.discomfort_level := by
  rw [evaluate_eq]

theorem evaluate_forearm (p : UserProfile) :
    (evaluate p).has_forearm_pain = forearmF p.discomfort_level := by
  rw [evaluate_eq]

theorem evaluate_text (p : UserProfile) :
    (evaluate p).discomfort_level = p.discomfort_level := by
  rw [evaluate_eq]

/-! ### Validity of input records (spec section 3 and 6) -/

/-- The input contract the Prompter guarantees: enum fields in their
stated sets, a session of at least one minute, mouse weight absent or
between 20 and 200 grams. -/
def ValidProfile (p : UserProfile) : Prop :=
  p.hand_size ∈ ["small", "medium", "large"] ∧
  p.grip_style ∈ ["fingertip", "claw", "palm"] ∧
  p.session_duration ≥ 1 ∧
  p.keyboard_layout ∈ ["wasd", "esdf", "other"] ∧
  (p.mouse_weight = none ∨ ∃ w, p.mouse_weight = some w ∧ 20 ≤ w ∧ w ≤ 200) ∧
  p.space_issue ∈ ["yes", "no"] ∧
  p.game_type ∈ ["fps", "moba", "rpg", "mmorpg", "other"]

/-- Derived fields at their dataclass defaults, as in a record freshly
built by the Prompter (source lines 205-214 pass no derived fields). -/
def FreshDerived (p : UserProfile) : Prop :=
  p.risk_points = 0 ∧ p.risk_level = "none" ∧ p.recommendations = [] ∧
  p.has_wrist_pain = false ∧ p.has_finger_pain = false ∧ p.has_forearm_pain = false

/-! ### Concrete records used by examples, witnesses and counterexamples -/

/-- A valid record whose discomfort text mixes a pain keyword with
"none" (spec section 8's override example); weight 65 sits in the 61-70
gap so no rule can contribute points once the pain flags are cleared. -/
def noneSample : UserProfile :=
  { hand_size := "medium", grip_style := "palm", session_duration := 60,
    discomfort_level := "wrist pain, none currently", keyboard_layout := "wasd",
    mouse_weight := some 65, space_issue := "no", game_type := "rpg" }

/-- Record `noneSample` with empty discomfort text. -/
def emptySample : UserProfile :=
  { noneSample with discomfort_level := "" }

/-! ### Claim theorems -/

/-- C1: for every InputRecord with valid fields and fresh derived
fields, the `risk_points` produced by `evaluate` equals the sum of the
per-rule contributions — +2/+1/0 from session duration, +2 for the
wrist flag, +1 for the finger flag, +1 for the forearm flag, +1 when
the mouse weight is present and above 70 g — and is non-negative. -/
theorem c1_risk_points_sum (p : UserProfile) (hv : ValidProfile p) (hf : FreshDerived p) :
    (evaluate p).risk_points =
      (if p.session_duration ≥ 180 then 2 else if p.session_duration ≥ 90 then 1 else 0) +
      (if (evaluate p).has_wrist_pain then 2 else 0) +
      (if (evaluate p).has_finger_pain then 1 else 0) +
      (if (evaluate p).has_forearm_pain then 1 else 0) +
      (match p.mouse_weight with
        | some w => if w > 70 then 1 else 0
        | none => 0) ∧
    0 ≤ (evaluate p).risk_points := by
  obtain ⟨hrp, -, -, -, -, -⟩ := hf
  rw [evaluate_eq]
  simp only [hrp]
  unfold totalPts sessionPts painPts weightPts
  rcases hm : p.mouse_weight with _ | w <;>
    simp [hm] <;> split_ifs <;> omega

/-- Witness for C1 at a concrete valid fresh record. -/
theorem c1_risk_points_sum_witness :
    ValidProfile noneSample ∧ FreshDerived noneSample ∧
    ((evaluate noneSample).risk_points =
      (if noneSample.session_duration ≥ 180 then 2
        else if noneSample.session_duration ≥ 90 then 1 else 0) +
      (if (evaluate noneSample).has_wrist_pain then 2 else 0) +
      (if (evaluate noneSample).has_finger_pain then 1 else 0) +
      (if (evaluate noneSample).has_forearm_pain then 1 else 0) +
      (match noneSample.mouse_weight with
        | some w => if w > 70 then 1 else 0
        | none => 0) ∧
    0 ≤ (evaluate noneSample).risk_points) :=
  ⟨by constructor <;> simp [noneSample],
   by constructor <;> simp [noneSample],
   c1_risk_points_sum noneSample
     (by constructor <;> simp [noneSample])
     (by constructor <;> simp [noneSample])⟩

/-- C3: the risk level of every Outcome is the pure threshold
classification of its final point total (inclusive lower bounds,
highest first), with `classify 5 = "high"`, `classify 2 = "mild"` and
`classify 0 = "none"`. -/
theorem c3_risk_level_classification :
    (∀ p : UserProfile, (evaluate p).risk_level = classify (evaluate p).risk_points) ∧
    classify 5 = "high" ∧ classify 2 = "mild" ∧ classify 0 = "none" := by
  refine ⟨fun p => ?_, by decide, by decide, by decide⟩
  rw [evaluate_eq]

/-- C5: `parse_discomfort` lower-cases the discomfort text and sets the
three flags by substring containment of "wrist", "finger"/"fingers" and
"forearm", except that a text containing "none" anywhere forces all
three flags false; "wrist pain, none currently" therefore sets no flag
and yields zero risk points, and empty text yields all-false flags. -/
theorem c5_pain_flag_parsing :
    (∀ p : UserProfile,
      (parse_discomfort p).has_wrist_pain =
        (pyIn "wrist" (pyLower p.discomfort_level) &&
          !(pyIn "none" (pyLower p.discomfort_level))) ∧
      (parse_discomfort p).has_finger_pain =
        ((pyIn "finger" (pyLower p.discomfort_level) ||
            pyIn "fingers" (pyLower p.discomfort_level)) &&
          !(pyIn "none" (pyLower p.discomfort_level))) ∧
      (parse_discomfort p).has_forearm_pain =
        (pyIn "forearm" (pyLower p.discomfort_level) &&
          !(pyIn "none" (pyLower p.discomfort_level)))) ∧
    ((parse_discomfort noneSample).has_wrist_pain = false ∧
      (parse_discomfort noneSample).has_finger_pain = false ∧
      (parse_discomfort noneSample).has_forearm_pain = false ∧
      (evaluate noneSample).risk_points = 0) ∧
    ((parse_discomfort emptySample).has_wrist_pain = false ∧
      (parse_discomfort emptySample).has_finger_pain = false ∧
      (parse_discomfort emptySample).has_forearm_pain = false) := by
  refine ⟨fun p => ?_, by decide, by decide⟩
  rw [parse_eq]
  exact ⟨rfl, rfl, rfl⟩

/-- C10: starting from zero risk points, one evaluation pass yields a
point total in the integer range [0, 7]. -/
theorem c10_risk_points_bounded (p : UserProfile) (h : p.risk_points = 0) :
    0 ≤ (evaluate p).risk_points ∧ (evaluate p).risk_points ≤ 7 := by
  rw [evaluate_eq]
  simp only [h]
  unfold totalPts sessionPts painPts weightPts
  rcases hm : p.mouse_weight with _ | w <;>
    simp [hm] <;> split_ifs <;> omega

/-- Witness for C10 at a concrete record with zero initial points. -/
theorem c10_risk_points_bounded_witness :
    0 ≤ (evaluate noneSample).risk_points ∧ (evaluate noneSample).risk_points ≤ 7 :=
  c10_risk_points_bounded noneSample (by decide)

/-- A fully valid record (small fingertip, long sessions, no
discomfort, 65 g mouse) used to exhibit the effect of evaluating the
same record twice. -/
def repeatSample : UserProfile :=
  { hand_size := "small", grip_style := "fingertip", session_duration := 200,
    discomfort_level := "", keyboard_layout := "wasd", mouse_weight := some 65,
    space_issue := "no", game_type := "other" }

/-- C2 counterexample: `evaluate` writes its results into the very
record it receives, so the second of two calls on the same record finds
`risk_points` already at 2 and raises it to 4 (and the risk level from
"mild" to "moderate"); the outcomes of the two calls are not
bit-identical and the input record is mutated. -/
theorem c2_not_idempotent_counterexample :
    evaluate (evaluate repeatSample) ≠ evaluate repeatSample ∧
    evaluate repeatSample ≠ repeatSample ∧
    (evaluate repeatSample).risk_points = 2 ∧
    (evaluate (evaluate repeatSample)).risk_points = 4 ∧
    (evaluate repeatSample).risk_level = "mild" ∧
    (evaluate (evaluate repeatSample)).risk_level = "moderate" := by
  decide

/-- C2 amended: `evaluate` is a pure function of the record value, but
it stores its results in the record's own derived fields, so it is not
idempotent: re-evaluating an already evaluated record leaves the
recommendation list and the pain flags unchanged yet adds the same
per-rule point total a second time (the point increment of the second
pass equals that of the first). -/
theorem c2_reevaluation_behavior (p : UserProfile) :
    (evaluate (evaluate p)).recommendations = (evaluate p).recommendations ∧
    (evaluate (evaluate p)).has_wrist_pain = (evaluate p).has_wrist_pain ∧
    (evaluate (evaluate p)).has_finger_pain = (evaluate p).has_finger_pain ∧
    (evaluate (evaluate p)).has_forearm_pain = (evaluate p).has_forearm_pain ∧
    (evaluate (evaluate p)).risk_points - (evaluate p).risk_points =
      (evaluate p).risk_points - p.risk_points := by
  refine ⟨?_, ?_, ?_, ?_, ?_⟩
  · rw [evaluate_recs (evaluate p), allMsgs_evaluate, evaluate_recs p]
    exact addAll_idem _ _
  · rw [evaluate_wrist (evaluate p), evaluate_wrist p, evaluate_text p]
  · rw [evaluate_finger (evaluate p), evaluate_finger p, evaluate_text p]
  · rw [evaluate_forearm (evaluate p), evaluate_forearm p, evaluate_text p]
  · rw [evaluate_points (evaluate p), totalPts_evaluate, evaluate_points p]
    omega

/-- C4: the mouse-weight rule is the exact case split of the source:
weight above 95 adds one point and the heavy-mouse message; otherwise
above 70 (71-95) adds one point and the lighter-mouse message;
otherwise at most 60 adds no point and the positive-affirmation
message; 61-70 adds nothing at all; an absent weight adds no point and
the weight-unknown message. -/
theorem c4_mouse_weight_rule (p : UserProfile) :
    (p.mouse_weight = none →
      weightRule p =
        { p with recommendations := addRec p.recommendations msgUnknownWeight }) ∧
    (∀ w : Int, p.mouse_weight = some w →
      (w > 95 → weightRule p = { p with
        risk_points := p.risk_points + 1
        recommendations := addRec p.recommendations msgHeavy }) ∧
      (w ≤ 95 → w > 70 → weightRule p = { p with
        risk_points := p.risk_points + 1
        recommendations := addRec p.recommendations msgLighter }) ∧
      (w ≤ 60 → weightRule p =
        { p with recommendations := addRec p.recommendations msgGoodWeight }) ∧
      (w > 60 → w ≤ 70 → weightRule p = p)) := by
  constructor
  · intro h
    simp [weightRule, h, add_recommendation]
  · intro w h
    refine ⟨fun h1 => ?_, fun h1 h2 => ?_, fun h1 => ?_, fun h1 h2 => ?_⟩ <;>
      (simp only [weightRule, h]
       split_ifs <;>
         first | (exfalso; omega) | (simp [add_recommendation]; try assumption))

/-- Records at the weight bands used to witness C4. -/
def wNone : UserProfile := { noneSample with mouse_weight := none }

def w100 : UserProfile := { noneSample with mouse_weight := some 100 }

def w80 : UserProfile := { noneSample with mouse_weight := some 80 }

def w50 : UserProfile := { noneSample with mouse_weight := some 50 }

/-- Witness for C4 at weights 100, 80, 50, 65 and absent. -/
theorem c4_mouse_weight_rule_witness :
    weightRule wNone =
      { wNone with recommendations := addRec wNone.recommendations msgUnknownWeight } ∧
    weightRule w100 = { w100 with
      risk_points := w100.risk_points + 1
      recommendations := addRec w100.recommendations msgHeavy } ∧
    weightRule w80 = { w80 with
      risk_points := w80.risk_points + 1
      recommendations := addRec w80.recommendations msgLighter } ∧
    weightRule w50 =
      { w50 with recommendations := addRec w50.recommendations msgGoodWeight } ∧
    weightRule noneSample = noneSample :=
  ⟨(c4_mouse_weight_rule wNone).1 rfl,
   ((c4_mouse_weight_rule w100).2 100 rfl).1 (by decide),
   ((c4_mouse_weight_rule w80).2 80 rfl).2.1 (by decide) (by decide),
   ((c4_mouse_weight_rule w50).2 50 rfl).2.2.1 (by decide),
   ((c4_mouse_weight_rule noneSample).2 65 rfl).2.2.2 (by decide) (by decide)⟩

/-- C6: `add_recommendation` appends a message only when absent (under
exact string equality) and is identity otherwise; therefore one
evaluation pass keeps the recommendation list duplicate-free and only
ever extends it, preserving first-insertion order. -/
theorem c6_recommendation_list_invariant :
    (∀ (p : UserProfile) (m : String), m ∈ p.recommendations →
      add_recommendation p m = p) ∧
    (∀ (p : UserProfile) (m : String), m ∉ p.recommendations →
      (add_recommendation p m).recommendations = p.recommendations ++ [m]) ∧
    (∀ p : UserProfile, p.recommendations.Nodup → (evaluate p).recommendations.Nodup) ∧
    (∀ p : UserProfile, ∃ t, (evaluate p).recommendations = p.recommendations ++ t) := by
  refine ⟨fun p m h => ?_, fun p m h => ?_, fun p h => ?_, fun p => ?_⟩
  · show { p with recommendations := addRec p.recommendations m } = p
    rw [addRec_of_mem h]
  · simp [add_recommendation, addRec, h]
  · rw [evaluate_eq]
    exact addAll_nodup _ h
  · rw [evaluate_eq]
    exact addAll_extends _ _

/-- A record whose recommendation list already holds the FPS message. -/
def witBase : UserProfile := { noneSample with recommendations := [msgFps] }

/-- Witness for C6: re-adding a present message is a no-op, adding an
absent one appends it, and evaluation keeps the list duplicate-free
while only appending to it. -/
theorem c6_recommendation_list_invariant_witness :
    add_recommendation witBase msgFps = witBase ∧
    (add_recommendation witBase msgMoba).recommendations = [msgFps, msgMoba] ∧
    (evaluate witBase).recommendations.Nodup ∧
    (∃ t, (evaluate witBase).recommendations = witBase.recommendations ++ t) :=
  ⟨c6_recommendation_list_invariant.1 witBase msgFps (by decide),
   c6_recommendation_list_invariant.2.1 witBase msgMoba (by decide),
   c6_recommendation_list_invariant.2.2.1 witBase (by decide),
   c6_recommendation_list_invariant.2.2.2 witBase⟩

/-- The end-to-end scenario record of spec section 8. -/
def rec7 : UserProfile :=
  { hand_size := "large", grip_style := "claw", session_duration := 200,
    discomfort_level := "wrist and forearm pain", keyboard_layout := "wasd",
    mouse_weight := some 100, space_issue := "yes", game_type := "fps" }

/-- C7: the end-to-end scenario (large claw hand, 200-minute sessions,
wrist and forearm pain, wasd layout, 100 g mouse, space issue, FPS)
scores 2+2+1+1 = 6 points, classifies "high", and its recommendations
contain the long-session, two wrist, forearm, large+claw, heavy-mouse,
compact-keyboard and FPS messages in that order without duplicates. -/
theorem c7_end_to_end_scenario :
    (evaluate rec7).risk_points = 6 ∧
    (evaluate rec7).risk_level = "high" ∧
    List.Sublist
      [msgLongSession, msgWrist1, msgWrist2, msgForearm, msgLargeClaw, msgHeavy,
        msgSpace, msgFps]
      (evaluate rec7).recommendations ∧
    (evaluate rec7).recommendations.Nodup := by
  have h : (evaluate rec7).recommendations =
      [msgLongSession, msgWrist1, msgWrist2, msgForearm, msgLargeClaw, msgHeavy,
        msgEsdf, msgSpace, msgFps] := by decide
  refine ⟨by decide, by decide, ?_, ?_⟩
  · rw [h]
    decide
  · rw [h]
    decide

/-- A record whose four enum fields all hold unrecognized values. -/
def pBad : UserProfile :=
  { hand_size := "gigantic", grip_style := "vulcan", session_duration := 30,
    discomfort_level := "", keyboard_layout := "dvorak", mouse_weight := some 65,
    space_issue := "no", game_type := "chess" }

/-- C8: the lookup-table rule blocks silently contribute nothing when
no case matches — an unrecognized hand size disables both the
hand-grip and the keyboard-layout block, an unrecognized grip style
the hand-grip block, an unrecognized game type the game block, and a
layout that is neither "wasd" nor "esdf" the keyboard block — so
evaluation completes on out-of-contract records instead of failing. -/
theorem handGripRule_id_of_bad_hand {p : UserProfile}
    (h : p.hand_size ∉ ["small", "medium", "large"]) : handGripRule p = p := by
  unfold handGripRule
  split_ifs <;> first | rfl | (exfalso; simp_all)

theorem handGripRule_id_of_bad_grip {p : UserProfile}
    (h : p.grip_style ∉ ["fingertip", "claw", "palm"]) : handGripRule p = p := by
  unfold handGripRule
  split_ifs <;> first | rfl | (exfalso; simp_all)

theorem keyboardRule_id_of_bad_hand {p : UserProfile}
    (h : p.hand_size ∉ ["small", "medium", "large"]) : keyboardRule p = p := by
  unfold keyboardRule
  split_ifs <;> first | rfl | (exfalso; simp_all)

theorem keyboardRule_id_of_bad_layout {p : UserProfile}
    (h : p.keyboard_layout ≠ "wasd" ∧ p.keyboard_layout ≠ "esdf") : keyboardRule p = p := by
  unfold keyboardRule
  split_ifs <;> first | rfl | (exfalso; simp_all)

theorem gameRule_id_of_bad_game {p : UserProfile}
    (h : p.game_type ∉ ["fps", "moba", "rpg", "mmorpg", "other"]) : gameRule p = p := by
  unfold gameRule
  split_ifs <;> first | rfl | (exfalso; simp_all)

theorem c8_no_match_no_effect (p : UserProfile) :
    (p.hand_size ∉ ["small", "medium", "large"] →
      handGripRule p = p ∧ keyboardRule p = p) ∧
    (p.grip_style ∉ ["fingertip", "claw", "palm"] → handGripRule p = p) ∧
    (p.game_type ∉ ["fps", "moba", "rpg", "mmorpg", "other"] → gameRule p = p) ∧
    (p.keyboard_layout ≠ "wasd" ∧ p.keyboard_layout ≠ "esdf" → keyboardRule p = p) :=
  ⟨fun h => ⟨handGripRule_id_of_bad_hand h, keyboardRule_id_of_bad_hand h⟩,
   fun h => handGripRule_id_of_bad_grip h,
   fun h => gameRule_id_of_bad_game h,
   fun h => keyboardRule_id_of_bad_layout h⟩

/-- Witness for C8: on `pBad` every lookup block is the identity. -/
theorem c8_no_match_no_effect_witness :
    (handGripRule pBad = pBad ∧ keyboardRule pBad = pBad) ∧
    handGripRule pBad = pBad ∧
    gameRule pBad = pBad ∧
    keyboardRule pBad = pBad :=
  ⟨(c8_no_match_no_effect pBad).1 (by decide),
   (c8_no_match_no_effect pBad).2.1 (by decide),
   (c8_no_match_no_effect pBad).2.2.1 (by decide),
   (c8_no_match_no_effect pBad).2.2.2 (by decide)⟩

/-- C9: every record with one of the five valid game types receives at
least the game-type recommendation, so its Outcome's recommendation
list is never empty. -/
theorem c9_valid_game_nonempty_recommendations (p : UserProfile)
    (h : p.game_type ∈ ["fps", "moba", "rpg", "mmorpg", "other"]) :
    (evaluate p).recommendations ≠ [] := by
  have hg : ∃ m, m ∈ gameMsgs p.game_type := by
    simp only [List.mem_cons, List.not_mem_nil, or_false] at h
    rcases h with h | h | h | h | h
    · exact ⟨msgFps, by simp [gameMsgs, h]⟩
    · exact ⟨msgMoba, by simp [gameMsgs, h]⟩
    · exact ⟨msgRpg, by simp [gameMsgs, h]⟩
    · exact ⟨msgMmorpg, by simp [gameMsgs, h]⟩
    · exact ⟨msgOther, by simp [gameMsgs, h]⟩
  obtain ⟨m, hm⟩ := hg
  have hall : m ∈ allMsgs p := by
    unfold allMsgs
    exact List.mem_append_right _ hm
  rw [evaluate_eq]
  show addAll (allMsgs p) p.recommendations ≠ []
  exact List.ne_nil_of_mem (mem_addAll_of_mem_list _ _ hall)

/-- Witness for C9 at a concrete record playing RPG. -/
theorem c9_valid_game_nonempty_recommendations_witness :
    (evaluate noneSample).recommendations ≠ [] :=
  c9_valid_game_nonempty_recommendations noneSample (by decide)

end Ergo
